import Mathlib

/-!
Verification development for the LeakLocker water-leak dashboard
(`src/leaklocker.py`).  The script's non-UI core is two functions:

* `load_data` (lines 15-35): reads a CSV, parses each row's `timestamp`
  string with a custom parser that first tries the day-first 12-hour
  format `%d/%m/%Y %I:%M:%S %p` and, on `ValueError`, the ISO 24-hour
  format `%Y-%m-%d %H:%M:%S`, returning `NaT` when both fail; rows whose
  timestamp is `NaT` are dropped (`dropna`).  Any failure to read the
  source at all is caught, an error is shown and the script is stopped.

* `detect_anomalies` (lines 38-46): copies the dataframe, derives `hour`
  and `day_of_week` from the timestamp, computes the mean `flow_rate_lpm`
  per `(suburb, hour)` group (`groupby(...).mean()`), merges that mean
  back onto every row as `avg_flow_rate` (inner merge, which preserves
  the order of the left rows and matches every row since the keys come
  from the same frame), and sets `anomaly = flow_rate_lpm > 2 * avg_flow_rate`.

The embedding below models dataframes as lists of records, floats as
rationals, and the two strptime format strings as explicit character
parsers with Python strptime semantics (1-2 digit day/month/hour/minute/
second fields, a 4-digit year, calendar-valid day-of-month,
case-insensitive meridiem, and the whole string consumed).
-/

namespace LeakLocker

/-- A parsed calendar timestamp, the result of the loader's datetime
parser (`pd.Timestamp` fields used by the script: `dt.hour` and
`dt.dayofweek` besides the date itself). -/
structure DateTime where
  year : ℕ
  month : ℕ
  day : ℕ
  hour : ℕ
  minute : ℕ
  second : ℕ
  deriving DecidableEq, Repr

/-- One raw CSV row before timestamp parsing: `timestamp` is still a
string; the other columns of `data.csv` used by the script. -/
structure RawRow where
  timestamp : String
  suburb : String
  street_address : String
  latitude : ℚ
  longitude : ℚ
  flow_rate_lpm : ℚ
  liters_used : ℚ
  deriving DecidableEq, Repr

/-- A loaded reading: a raw row whose timestamp string was parsed. -/
structure Reading where
  timestamp : DateTime
  suburb : String
  street_address : String
  latitude : ℚ
  longitude : ℚ
  flow_rate_lpm : ℚ
  liters_used : ℚ
  deriving DecidableEq, Repr

/-- A reading annotated by `detect_anomalies` with the four derived
columns `hour`, `day_of_week`, `avg_flow_rate` and `anomaly`. -/
structure AnnotatedReading where
  timestamp : DateTime
  suburb : String
  street_address : String
  latitude : ℚ
  longitude : ℚ
  flow_rate_lpm : ℚ
  liters_used : ℚ
  hour : ℕ
  day_of_week : ℕ
  avg_flow_rate : ℚ
  anomaly : Bool
  deriving DecidableEq, Repr

/-! ### The timestamp parser (load_data lines 20-27) -/

/-- Numeric value of a decimal digit character, `none` otherwise. -/
def digitVal (c : Char) : Option ℕ :=
  if ('0') ≤ c ∧ c ≤ ('9') then some (c.toNat - 48) else none

/-- Greedily take at most `n` leading digits from the character stream
(strptime numeric fields match greedily up to their width). -/
def takeDigits : ℕ → List Char → List ℕ × List Char
  | 0, cs => ([], cs)
  | _ + 1, [] => ([], [])
  | n + 1, c :: cs =>
    match digitVal c with
    | some d => let p := takeDigits n cs; (d :: p.1, p.2)
    | none => ([], c :: cs)

/-- Decimal value of a digit list (most significant first). -/
def digitsToNat (ds : List ℕ) : ℕ :=
  ds.foldl (fun a d => 10 * a + d) 0

/-- Read a 1-to-`maxDigits`-digit number, as strptime does for
`%d %m %H %I %M %S` (which accept one or two digits). -/
def readNum (maxDigits : ℕ) (cs : List Char) : Option (ℕ × List Char) :=
  let p := takeDigits maxDigits cs
  if p.1 = [] then none else some (digitsToNat p.1, p.2)

/-- Read an exactly-4-digit year, as strptime does for `%Y`. -/
def readNum4 (cs : List Char) : Option (ℕ × List Char) :=
  let p := takeDigits 4 cs
  if p.1.length = 4 then some (digitsToNat p.1, p.2) else none

/-- Consume one expected literal character of the format string. -/
def expectChar (c : Char) (cs : List Char) : Option (List Char) :=
  match cs with
  | [] => none
  | c2 :: rest => if c2 = c then some rest else none

/-- Read the `%p` meridiem field: `true` for PM, `false` for AM
(strptime matches it case-insensitively). -/
def readMeridiem (cs : List Char) : Option (Bool × List Char) :=
  match cs with
  | a :: b :: rest =>
    if (a = ('A') ∨ a = ('a')) ∧ (b = ('M') ∨ b = ('m')) then some (false, rest)
    else if (a = ('P') ∨ a = ('p')) ∧ (b = ('M') ∨ b = ('m')) then some (true, rest)
    else none
  | _ => none

/-- Gregorian leap year. -/
def isLeapYear (y : ℕ) : Bool :=
  decide ((y % 4 = 0 ∧ y % 100 ≠ 0) ∨ y % 400 = 0)

/-- Number of days in a month (strptime rejects e.g. Feb 30). -/
def daysInMonth (y m : ℕ) : ℕ :=
  if m = 2 then (if isLeapYear y then 29 else 28)
  else if m = 4 ∨ m = 6 ∨ m = 9 ∨ m = 11 then 30
  else 31

/-- Parse the first format tried by `parse_datetime`:
`%d/%m/%Y %I:%M:%S %p` (day-first date, 12-hour clock with meridiem). -/
def parseFmtDMY (s : String) : Option DateTime := do
  let cs := s.data
  let (d, cs) ← readNum 2 cs
  let cs ← expectChar ('/') cs
  let (m, cs) ← readNum 2 cs
  let cs ← expectChar ('/') cs
  let (y, cs) ← readNum4 cs
  let cs ← expectChar (' ') cs
  let (h12, cs) ← readNum 2 cs
  let cs ← expectChar (':') cs
  let (mi, cs) ← readNum 2 cs
  let cs ← expectChar (':') cs
  let (sec, cs) ← readNum 2 cs
  let cs ← expectChar (' ') cs
  let (pm, cs) ← readMeridiem cs
  if cs = [] ∧ 1 ≤ m ∧ m ≤ 12 ∧ 1 ≤ d ∧ d ≤ daysInMonth y m ∧
      1 ≤ h12 ∧ h12 ≤ 12 ∧ mi ≤ 59 ∧ sec ≤ 59 then
    some { year := y, month := m, day := d,
           hour := (if pm then (if h12 = 12 then 12 else h12 + 12)
                    else (if h12 = 12 then 0 else h12)),
           minute := mi, second := sec }
  else none

/-- Parse the fallback format tried by `parse_datetime`:
`%Y-%m-%d %H:%M:%S` (ISO date, 24-hour clock). -/
def parseFmtYMD (s : String) : Option DateTime := do
  let cs := s.data
  let (y, cs) ← readNum4 cs
  let cs ← expectChar ('-') cs
  let (m, cs) ← readNum 2 cs
  let cs ← expectChar ('-') cs
  let (d, cs) ← readNum 2 cs
  let cs ← expectChar (' ') cs
  let (h, cs) ← readNum 2 cs
  let cs ← expectChar (':') cs
  let (mi, cs) ← readNum 2 cs
  let cs ← expectChar (':') cs
  let (sec, cs) ← readNum 2 cs
  if cs = [] ∧ 1 ≤ m ∧ m ≤ 12 ∧ 1 ≤ d ∧ d ≤ daysInMonth y m ∧
      h ≤ 23 ∧ mi ≤ 59 ∧ sec ≤ 59 then
    some { year := y, month := m, day := d, hour := h, minute := mi, second := sec }
  else none

/-- `parse_datetime` (lines 20-27): try the day-first 12-hour format;
on failure (`ValueError`) try the ISO 24-hour format; if both fail the
value is `NaT`, modelled as `none`. -/
def parse_datetime (s : String) : Option DateTime :=
  match parseFmtDMY s with
  | some dt => some dt
  | none => parseFmtYMD s

/-! ### The loader (load_data, lines 15-35) -/

/-- Parsing one raw row: `df['timestamp'] = df['timestamp'].apply(parse_datetime)`
turns the timestamp column into a parsed value or `NaT`; all other
columns are untouched.  A row whose timestamp is `NaT` is later dropped,
so per row the composite effect is an `Option`. -/
def parseRow (row : RawRow) : Option Reading :=
  match parse_datetime row.timestamp with
  | some dt => some
      { timestamp := dt, suburb := row.suburb, street_address := row.street_address,
        latitude := row.latitude, longitude := row.longitude,
        flow_rate_lpm := row.flow_rate_lpm, liters_used := row.liters_used }
  | none => none

/-- Lines 29-30: parse every timestamp, then
`df.dropna(subset=['timestamp'])` keeps exactly the rows that parsed. -/
def loadRows (rows : List RawRow) : List Reading :=
  rows.filterMap parseRow

/-- Result of `load_data`: either the loaded readings, or the halted
state produced by `st.error(...)` followed by `st.stop()` when reading
the source raised (lines 33-35). -/
inductive LoadOutcome where
  | halted
  | ok (rows : List Reading)
  deriving DecidableEq

/-- `load_data` with its outer try/except: an unreadable source
(missing file or malformed structure, modelled as `none`) reaches the
`except` branch, which reports the error and stops the script. -/
def load_data (source : Option (List RawRow)) : LoadOutcome :=
  match source with
  | none => LoadOutcome.halted
  | some rows => LoadOutcome.ok (loadRows rows)

/-! ### The detector (detect_anomalies, lines 38-46) -/

/-- `dt.dayofweek` with Monday = 0 .. Sunday = 6, via Zeller's
congruence on the Gregorian calendar. -/
def dayOfWeek (y m d : ℕ) : ℕ :=
  let yy := if m < 3 then y - 1 else y
  let mm := if m < 3 then m + 12 else m
  let k := yy % 100
  let j := yy / 100
  let h := (d + (13 * (mm + 1)) / 5 + k + k / 4 + j / 4 + 5 * j) % 7
  (h + 5) % 7

/-- The rows of the dataframe belonging to one `(suburb, hour)` group
(the `hour` column is `dt.hour` of the parsed timestamp, line 40). -/
def groupRows (rs : List Reading) (sub : String) (h : ℕ) : List Reading :=
  rs.filter (fun r => decide (r.suburb = sub ∧ r.timestamp.hour = h))

/-- The `flow_rate_lpm` column restricted to one group. -/
def groupFlows (rs : List Reading) (sub : String) (h : ℕ) : List ℚ :=
  (groupRows rs sub h).map (fun r => r.flow_rate_lpm)

/-- Arithmetic mean, as `groupby(...)['flow_rate_lpm'].mean()` computes
it for one group. -/
def mean (l : List ℚ) : ℚ :=
  l.sum / (l.length : ℚ)

/-- The distinct `(suburb, hour)` keys of the dataframe: `groupby`
produces one output row per distinct key. -/
def keysOf (rs : List Reading) : List (String × ℕ) :=
  (rs.map (fun r => (r.suburb, r.timestamp.hour))).dedup

/-- Line 42-43: `hourly_avg`, one row per `(suburb, hour)` key holding
the group's mean flow, renamed to `avg_flow_rate`. -/
def hourly_avg (rs : List Reading) : List ((String × ℕ) × ℚ) :=
  (keysOf rs).map (fun k => (k, mean (groupFlows rs k.1 k.2)))

/-- Key lookup in `hourly_avg`, as the merge on `['suburb', 'hour']`
matches a left row against the (unique) right row with its key. -/
def lookupKey (k : String × ℕ) : List ((String × ℕ) × ℚ) → Option ℚ
  | [] => none
  | e :: rest => if e.1 = k then some e.2 else lookupKey k rest

/-- Lines 38-46, `detect_anomalies`: derive `hour` and `day_of_week`
from the timestamp, attach each row's group mean as `avg_flow_rate` via
the merge (an inner merge: it preserves the order of the left rows and
drops a left row only if its key has no match on the right), and set
`anomaly = flow_rate_lpm > 2 * avg_flow_rate`. -/
def detect_anomalies (rs : List Reading) : List AnnotatedReading :=
  rs.filterMap (fun r =>
    match lookupKey (r.suburb, r.timestamp.hour) (hourly_avg rs) with
    | none => none
    | some avg => some
        { timestamp := r.timestamp, suburb := r.suburb,
          street_address := r.street_address,
          latitude := r.latitude, longitude := r.longitude,
          flow_rate_lpm := r.flow_rate_lpm, liters_used := r.liters_used,
          hour := r.timestamp.hour,
          day_of_week := dayOfWeek r.timestamp.year r.timestamp.month r.timestamp.day,
          avg_flow_rate := avg,
          anomaly := decide (r.flow_rate_lpm > 2 * avg) })

/-- The whole script's data path (lines 52-54): load, and only if the
loader did not halt, run the detector; a halted load produces nothing
for the presentation layer. -/
def runPipeline (source : Option (List RawRow)) : Option (List AnnotatedReading) :=
  match load_data source with
  | LoadOutcome.halted => none
  | LoadOutcome.ok rows => some (detect_anomalies rows)

/-- A single reading's annotation, with `avg_flow_rate` spelled as its
group's mean directly; `detect_eq_map` below proves `detect_anomalies`
computes exactly this for every row. -/
def annotate (rs : List Reading) (r : Reading) : AnnotatedReading :=
  let avg := mean (groupFlows rs r.suburb r.timestamp.hour)
  { timestamp := r.timestamp, suburb := r.suburb,
    street_address := r.street_address,
    latitude := r.latitude, longitude := r.longitude,
    flow_rate_lpm := r.flow_rate_lpm, liters_used := r.liters_used,
    hour := r.timestamp.hour,
    day_of_week := dayOfWeek r.timestamp.year r.timestamp.month r.timestamp.day,
    avg_flow_rate := avg,
    anomaly := decide (r.flow_rate_lpm > 2 * avg) }

/-- Recover the original columns of an annotated reading. -/
def stripAnnotations (a : AnnotatedReading) : Reading :=
  { timestamp := a.timestamp, suburb := a.suburb,
    street_address := a.street_address,
    latitude := a.latitude, longitude := a.longitude,
    flow_rate_lpm := a.flow_rate_lpm, liters_used := a.liters_used }

/-- State-passing view of the call `detect_anomalies(df)` seen from the
caller: line 39 `df = df.copy()` rebinds the local name to a fresh copy,
so every later column assignment acts on the copy; the pair returned is
(the function's result, the caller's dataframe after the call). -/
def detect_anomalies_call (caller : List Reading) : List AnnotatedReading × List Reading :=
  let df := caller
  (detect_anomalies df, caller)

/-! ### Structural lemmas -/

/-- Looking up a key present in a key-list tabulated with `f` yields
`f` of the key (the value stored with a key is determined by the key). -/
theorem lookupKey_map (f : String × ℕ → ℚ) :
    ∀ (l : List (String × ℕ)) (k : String × ℕ), k ∈ l →
      lookupKey k (l.map (fun a => (a, f a))) = some (f k) := by
  intro l
  induction l with
  | nil => intro k hk; cases hk
  | cons a l ih =>
    intro k hk
    by_cases hak : a = k
    · subst hak
      simp [lookupKey]
    · rcases List.mem_cons.mp hk with h | h
      · exact absurd h.symm hak
      · simpa [lookupKey, hak] using ih k h

/-- If `f` succeeds with `g` on every member, `filterMap f` is `map g`. -/
theorem filterMap_eq_map_of {α β : Type} (f : α → Option β) (g : α → β) :
    ∀ l : List α, (∀ a ∈ l, f a = some (g a)) → l.filterMap f = l.map g := by
  intro l
  induction l with
  | nil => intro _; rfl
  | cons a l ih =>
    intro h
    rw [List.filterMap_cons, h a (List.mem_cons_self a l),
      List.map_cons, ih (fun b hb => h b (List.mem_cons_of_mem a hb))]

/-- The merge in `detect_anomalies` matches every row (the keys on the
right come from the same dataframe), so the detector annotates each row
in place: it equals a map of `annotate` over the input. -/
theorem detect_eq_map (rs : List Reading) :
    detect_anomalies rs = rs.map (annotate rs) := by
  apply filterMap_eq_map_of
  intro r hr
  have hkey : (r.suburb, r.timestamp.hour) ∈ keysOf rs := by
    exact List.mem_dedup.mpr (List.mem_map_of_mem _ hr)
  have hlook := lookupKey_map (fun k => mean (groupFlows rs k.1 k.2)) _ _ hkey
  simp only [hourly_avg]
  rw [hlook]
  rfl

/-! ### Concrete sample data -/

/-- A fixed parsed timestamp (June 1 2024, 10:00:00). -/
def ts0 : DateTime :=
  { year := 2024, month := 6, day := 1, hour := 10, minute := 0, second := 0 }

/-- A reading in suburb Ipswich at hour 10 with the given flow. -/
def sampleReading (q : ℚ) : Reading :=
  { timestamp := ts0, suburb := ("Ipswich"), street_address := ("1 Main St"),
    latitude := 0, longitude := 0, flow_rate_lpm := q, liters_used := 0 }

/-- Sample reading with flow 4 L/min. -/
def r4 : Reading := sampleReading 4

/-- Sample reading with flow 20 L/min. -/
def r20 : Reading := sampleReading 20

/-- A raw row whose timestamp is in the ISO fallback format. -/
def rawISO : RawRow :=
  { timestamp := ("2024-06-01 15:15:00"), suburb := ("Ipswich"),
    street_address := ("1 Main St"), latitude := 0, longitude := 0,
    flow_rate_lpm := 4, liters_used := 0 }

/-- The reading `rawISO` loads to. -/
def readingISO : Reading :=
  { timestamp := { year := 2024, month := 6, day := 1, hour := 15, minute := 15, second := 0 },
    suburb := ("Ipswich"), street_address := ("1 Main St"),
    latitude := 0, longitude := 0, flow_rate_lpm := 4, liters_used := 0 }

/-! ### Claim theorems -/

/-- Claim C1: for every row in the detector's output, the anomaly flag
is true if and only if that row's `flow_rate_lpm` is strictly greater
than 2 times its `avg_flow_rate` (line 45 of the script). -/
theorem anomaly_iff_flow_exceeds_twice_avg (rs : List Reading)
    (a : AnnotatedReading) (ha : a ∈ detect_anomalies rs) :
    a.anomaly = true ↔ a.flow_rate_lpm > 2 * a.avg_flow_rate := by
  rw [detect_eq_map] at ha
  obtain ⟨r, hr, rfl⟩ := List.mem_map.mp ha
  simp [annotate]

/-- Witness for C1 at a concrete one-row dataframe. -/
theorem anomaly_iff_flow_exceeds_twice_avg_witness :
    annotate [r4] r4 ∈ detect_anomalies [r4] ∧
      ((annotate [r4] r4).anomaly = true ↔
        (annotate [r4] r4).flow_rate_lpm > 2 * (annotate [r4] r4).avg_flow_rate) := by
  have hm : annotate [r4] r4 ∈ detect_anomalies [r4] := by
    rw [detect_eq_map]
    exact List.mem_map_of_mem _ (by simp)
  exact ⟨hm, anomaly_iff_flow_exceeds_twice_avg [r4] _ hm⟩

/-- Claim C2: every output row's `avg_flow_rate` is the arithmetic mean
of `flow_rate_lpm` over exactly its `(suburb, hour)` group in the full
input, and all rows of one group carry the same value. -/
theorem avg_flow_rate_is_group_mean (rs : List Reading) (a : AnnotatedReading)
    (ha : a ∈ detect_anomalies rs) :
    a.avg_flow_rate = mean (groupFlows rs a.suburb a.hour) ∧
      ∀ b ∈ detect_anomalies rs, b.suburb = a.suburb → b.hour = a.hour →
        b.avg_flow_rate = a.avg_flow_rate := by
  rw [detect_eq_map] at ha
  obtain ⟨r, hr, rfl⟩ := List.mem_map.mp ha
  constructor
  · simp [annotate]
  · intro b hb hsub hhour
    rw [detect_eq_map] at hb
    obtain ⟨r2, hr2, rfl⟩ := List.mem_map.mp hb
    simp only [annotate] at hsub hhour ⊢
    rw [hsub, hhour]

/-- Witness for C2 at a concrete one-row dataframe. -/
theorem avg_flow_rate_is_group_mean_witness :
    annotate [r20] r20 ∈ detect_anomalies [r20] ∧
      (annotate [r20] r20).avg_flow_rate =
        mean (groupFlows [r20] (annotate [r20] r20).suburb (annotate [r20] r20).hour) := by
  have hm : annotate [r20] r20 ∈ detect_anomalies [r20] := by
    rw [detect_eq_map]
    exact List.mem_map_of_mem _ (by simp)
  exact ⟨hm, (avg_flow_rate_is_group_mean [r20] _ hm).1⟩

/-- Claim C4: the detector's output is exactly its input rows, in
order, with the original columns unchanged (stripping the four added
columns recovers the input). -/
theorem detect_preserves_rows (rs : List Reading) :
    (detect_anomalies rs).map stripAnnotations = rs := by
  rw [detect_eq_map, List.map_map]
  have hid : stripAnnotations ∘ annotate rs = id := by
    funext r
    cases r
    rfl
  rw [hid, List.map_id]

/-- Claim C5: an unreadable source (modelled `none`) halts the loader
and nothing reaches the detector or the presentation layer. -/
theorem unreadable_source_halts :
    load_data none = LoadOutcome.halted ∧ runPipeline none = none :=
  ⟨rfl, rfl⟩

/-- Claim C6: the detector is total by construction (it is a Lean
function); on the empty input it returns the empty output. -/
theorem detect_empty_input :
    detect_anomalies ([] : List Reading) = [] := rfl

/-- Claim C9: the caller's dataframe is unchanged by
`detect_anomalies`; line 39 copies it before any column is assigned. -/
theorem detect_does_not_mutate_input (caller : List Reading) :
    (detect_anomalies_call caller).2 = caller := rfl

/-- Claim C3: a retained row's timestamp comes from the first format
when it matches, else from the fallback format; and the spec's three
scenario strings behave as stated (the first two parse to June 1 2024
15:15, the third fails both formats and the row is dropped). -/
theorem loader_two_format_fallback (rows : List RawRow) (r : Reading)
    (hr : r ∈ loadRows rows) :
    (∃ row ∈ rows,
        parseFmtDMY row.timestamp = some r.timestamp ∨
          (parseFmtDMY row.timestamp = none ∧ parseFmtYMD row.timestamp = some r.timestamp)) ∧
      parse_datetime ("01/06/2024 03:15:00 PM") =
        some { year := 2024, month := 6, day := 1, hour := 15, minute := 15, second := 0 } ∧
      parse_datetime ("2024-06-01 15:15:00") =
        some { year := 2024, month := 6, day := 1, hour := 15, minute := 15, second := 0 } ∧
      parse_datetime ("not-a-date") = none := by
  refine ⟨?_, by decide, by decide, by decide⟩
  obtain ⟨row, hrow, hparse⟩ := List.mem_filterMap.mp hr
  refine ⟨row, hrow, ?_⟩
  unfold parseRow at hparse
  cases hdt : parse_datetime row.timestamp with
  | none => rw [hdt] at hparse; cases hparse
  | some dt =>
    rw [hdt] at hparse
    have hts : r.timestamp = dt := by
      injection hparse with h
      rw [← h]
    rw [hts]
    unfold parse_datetime at hdt
    cases hd : parseFmtDMY row.timestamp with
    | some d =>
      rw [hd] at hdt
      injection hdt with hdd
      exact Or.inl (by rw [hdd])
    | none =>
      rw [hd] at hdt
      exact Or.inr ⟨rfl, hdt⟩

/-- Witness for C3 at a concrete one-row source. -/
theorem loader_two_format_fallback_witness :
    readingISO ∈ loadRows [rawISO] ∧ parse_datetime ("not-a-date") = none := by
  have hm : readingISO ∈ loadRows [rawISO] := by decide
  exact ⟨hm, (loader_two_format_fallback [rawISO] readingISO hm).2.2.2⟩

/-- Claim C7: a row whose `(suburb, hour)` group has exactly one
reading gets its own flow as `avg_flow_rate` and, for non-negative
flow, is never flagged. -/
theorem singleton_group_not_flagged (rs : List Reading) (a : AnnotatedReading)
    (ha : a ∈ detect_anomalies rs)
    (hone : (groupRows rs a.suburb a.hour).length = 1)
    (hnn : 0 ≤ a.flow_rate_lpm) :
    a.avg_flow_rate = a.flow_rate_lpm ∧ a.anomaly = false := by
  rw [detect_eq_map] at ha
  obtain ⟨r, hr, rfl⟩ := List.mem_map.mp ha
  have hsub : (annotate rs r).suburb = r.suburb := rfl
  have hhour : (annotate rs r).hour = r.timestamp.hour := rfl
  have hflow : (annotate rs r).flow_rate_lpm = r.flow_rate_lpm := rfl
  have havg : (annotate rs r).avg_flow_rate =
      mean (groupFlows rs r.suburb r.timestamp.hour) := rfl
  have hanom : (annotate rs r).anomaly =
      decide (r.flow_rate_lpm > 2 * mean (groupFlows rs r.suburb r.timestamp.hour)) := rfl
  rw [hsub, hhour] at hone
  rw [hflow] at hnn
  obtain ⟨x, hx⟩ := List.length_eq_one.mp hone
  have hmem : r ∈ groupRows rs r.suburb r.timestamp.hour :=
    List.mem_filter.mpr ⟨hr, by simp⟩
  rw [hx] at hmem
  have hxr : x = r := (List.mem_singleton.mp hmem).symm
  rw [hxr] at hx
  have hmean : mean (groupFlows rs r.suburb r.timestamp.hour) = r.flow_rate_lpm := by
    unfold groupFlows
    rw [hx]
    simp [mean]
  constructor
  · rw [havg, hmean, hflow]
  · rw [hanom, hmean]
    simp only [decide_eq_false_iff_not]
    intro hgt
    linarith

/-- Witness for C7 at a concrete one-row dataframe. -/
theorem singleton_group_not_flagged_witness :
    (annotate [r4] r4).avg_flow_rate = (annotate [r4] r4).flow_rate_lpm ∧
      (annotate [r4] r4).anomaly = false := by
  have hm : annotate [r4] r4 ∈ detect_anomalies [r4] := by
    rw [detect_eq_map]
    exact List.mem_map_of_mem _ (by simp)
  exact singleton_group_not_flagged [r4] _ hm (by decide) (by decide)

/-- Claim C8 counterexample: on a group with flows 4 and 20 the claim
says the flow-20 reading is flagged; in fact no row of the output has
flow 20 and a true anomaly flag (20 > 2 * 12 = 24 is false). -/
theorem scenario2_flow20_not_flagged :
    ¬ ∃ a ∈ detect_anomalies [r4, r20], a.flow_rate_lpm = 20 ∧ a.anomaly = true := by
  have hg20 : groupFlows [r4, r20] r20.suburb r20.timestamp.hour = [4, 20] := by decide
  have hm : mean [(4 : ℚ), 20] = 12 := by norm_num [mean]
  rintro ⟨a, ha, hflow, hanom⟩
  rw [detect_eq_map] at ha
  rcases List.mem_map.mp ha with ⟨r, hr, rfl⟩
  simp only [List.mem_cons, List.mem_singleton, List.not_mem_nil, or_false] at hr
  rcases hr with rfl | rfl
  · have h4 : (annotate [r4, r20] r4).flow_rate_lpm = 4 := rfl
    rw [h4] at hflow
    norm_num at hflow
  · have hshow : (annotate [r4, r20] r20).anomaly =
        decide (r20.flow_rate_lpm >
          2 * mean (groupFlows [r4, r20] r20.suburb r20.timestamp.hour)) := rfl
    rw [hshow, hg20, hm] at hanom
    have hf : r20.flow_rate_lpm = (20 : ℚ) := rfl
    rw [hf] at hanom
    simp only [decide_eq_true_eq] at hanom
    norm_num at hanom

/-- Claim C8 as amended: for the group with flows 4 and 20, both rows
get `avg_flow_rate` 12 and neither row is flagged. -/
theorem scenario2_both_avg12_neither_flagged :
    (detect_anomalies [r4, r20]).map
        (fun a => (a.flow_rate_lpm, a.avg_flow_rate, a.anomaly)) =
      [(4, 12, false), (20, 12, false)] := by
  have hg4 : groupFlows [r4, r20] r4.suburb r4.timestamp.hour = [4, 20] := by decide
  have hg20 : groupFlows [r4, r20] r20.suburb r20.timestamp.hour = [4, 20] := by decide
  have hm : mean [(4 : ℚ), 20] = 12 := by norm_num [mean]
  rw [detect_eq_map]
  show [((annotate [r4, r20] r4).flow_rate_lpm, (annotate [r4, r20] r4).avg_flow_rate,
         (annotate [r4, r20] r4).anomaly),
        ((annotate [r4, r20] r20).flow_rate_lpm, (annotate [r4, r20] r20).avg_flow_rate,
         (annotate [r4, r20] r20).anomaly)] = [(4, 12, false), (20, 12, false)]
  have hf4 : (annotate [r4, r20] r4).flow_rate_lpm = 4 := rfl
  have hf20 : (annotate [r4, r20] r20).flow_rate_lpm = 20 := rfl
  have hv4 : (annotate [r4, r20] r4).avg_flow_rate = 12 := by
    show mean (groupFlows [r4, r20] r4.suburb r4.timestamp.hour) = 12
    rw [hg4]
    exact hm
  have hv20 : (annotate [r4, r20] r20).avg_flow_rate = 12 := by
    show mean (groupFlows [r4, r20] r20.suburb r20.timestamp.hour) = 12
    rw [hg20]
    exact hm
  have hb4 : (annotate [r4, r20] r4).anomaly = false := by
    show decide (r4.flow_rate_lpm >
        2 * mean (groupFlows [r4, r20] r4.suburb r4.timestamp.hour)) = false
    rw [hg4, hm]
    have hf : r4.flow_rate_lpm = (4 : ℚ) := rfl
    rw [hf]
    simp only [decide_eq_false_iff_not]
    norm_num
  have hb20 : (annotate [r4, r20] r20).anomaly = false := by
    show decide (r20.flow_rate_lpm >
        2 * mean (groupFlows [r4, r20] r20.suburb r20.timestamp.hour)) = false
    rw [hg20, hm]
    have hf : r20.flow_rate_lpm = (20 : ℚ) := rfl
    rw [hf]
    simp only [decide_eq_false_iff_not]
    norm_num
  rw [hf4, hf20, hv4, hv20, hb4, hb20]

/-- In a non-empty list of rationals some element is at most the mean
(stated multiplied out): a minimal element works. -/
theorem exists_mul_length_le_sum :
    ∀ l : List ℚ, l ≠ [] → ∃ x ∈ l, x * (l.length : ℚ) ≤ l.sum := by
  intro l
  induction l with
  | nil => intro h; exact absurd rfl h
  | cons a l ih =>
    intro _
    rcases eq_or_ne l [] with rfl | hl
    · refine ⟨a, List.mem_singleton_self a, ?_⟩
      simp
    · obtain ⟨x, hx, hxle⟩ := ih hl
      have hn : (0 : ℚ) ≤ (l.length : ℚ) := by positivity
      by_cases hax : a ≤ x
      · refine ⟨a, List.mem_cons_self a l, ?_⟩
        have h2 : a * (l.length : ℚ) ≤ x * (l.length : ℚ) :=
          mul_le_mul_of_nonneg_right hax hn
        simp only [List.length_cons, List.sum_cons]
        push_cast
        linarith
      · refine ⟨x, List.mem_cons_of_mem a hx, ?_⟩
        simp only [List.length_cons, List.sum_cons]
        push_cast
        linarith [le_of_not_le hax]

/-- Claim C10: every non-empty `(suburb, hour)` group with all flows
non-negative contains at least one reading the detector leaves
unflagged (a minimal-flow reading cannot exceed twice the group mean). -/
theorem group_has_unflagged_reading (rs : List Reading) (sub : String) (h : ℕ)
    (hne : groupRows rs sub h ≠ [])
    (hnn : ∀ r ∈ groupRows rs sub h, 0 ≤ r.flow_rate_lpm) :
    ∃ a ∈ detect_anomalies rs, a.suburb = sub ∧ a.hour = h ∧ a.anomaly = false := by
  have hfne : groupFlows rs sub h ≠ [] := by
    simp only [groupFlows, ne_eq, List.map_eq_nil_iff]
    exact hne
  obtain ⟨x, hxmem, hxle⟩ := exists_mul_length_le_sum _ hfne
  obtain ⟨r, hrmem, hrx⟩ := List.mem_map.mp hxmem
  have hr_rs : r ∈ rs := (List.mem_filter.mp hrmem).1
  have hrsub : r.suburb = sub ∧ r.timestamp.hour = h := by
    simpa using (List.mem_filter.mp hrmem).2
  refine ⟨annotate rs r, ?_, hrsub.1, hrsub.2, ?_⟩
  · rw [detect_eq_map]
    exact List.mem_map_of_mem _ hr_rs
  · have hanom : (annotate rs r).anomaly =
        decide (r.flow_rate_lpm > 2 * mean (groupFlows rs r.suburb r.timestamp.hour)) := rfl
    rw [hanom, hrsub.1, hrsub.2]
    simp only [decide_eq_false_iff_not]
    intro hgt
    have hsum_nonneg : 0 ≤ (groupFlows rs sub h).sum := by
      apply List.sum_nonneg
      intro q hq
      obtain ⟨r2, hr2, hr2q⟩ := List.mem_map.mp hq
      exact hr2q ▸ hnn r2 hr2
    have hlen_ne : (groupFlows rs sub h).length ≠ 0 := by
      simpa [List.length_eq_zero] using hfne
    have hlen_pos : (0 : ℚ) < ((groupFlows rs sub h).length : ℚ) := by
      exact_mod_cast Nat.pos_of_ne_zero hlen_ne
    have hmean : mean (groupFlows rs sub h) =
        (groupFlows rs sub h).sum / ((groupFlows rs sub h).length : ℚ) := rfl
    have hx_le_mean : x ≤ mean (groupFlows rs sub h) := by
      rw [hmean, le_div_iff₀ hlen_pos]
      exact hxle
    have hmean_nonneg : 0 ≤ mean (groupFlows rs sub h) := by
      rw [hmean]
      positivity
    rw [hrx] at hgt
    linarith

/-- Witness for C10 at a concrete one-row dataframe. -/
theorem group_has_unflagged_reading_witness :
    ∃ a ∈ detect_anomalies [r4],
      a.suburb = ("Ipswich") ∧ a.hour = 10 ∧ a.anomaly = false :=
  group_has_unflagged_reading [r4] ("Ipswich") 10 (by decide) (by decide)

end LeakLocker
